import Mathlib

set_option maxRecDepth 8000

/-!
# Verification of the gluesql scalar-value and evaluation core

This file is a shallow embedding, in Lean 4, of the two source files of the
repository:

* `core/src/data/value/binary_op/i16.rs` — the `i16` row of the numeric
  coercion and arithmetic engine (`PartialEq<Value> for i16`,
  `PartialOrd<Value> for i16`, `TryBinaryOperator for i16`);
* `src/executor/evaluate/evaluated.rs` — the four-shape `Evaluated` union and
  its literal-level comparison and arithmetic (`literal_partial_cmp`, the
  `binary_op!` macro, `PartialEq`/`PartialOrd` for `Evaluated`).

Machine integers are modelled as `Int` together with explicit range
predicates; a Rust `iN` value is an `Int` in `[-2^(N-1), 2^(N-1))`.  Rust
panics are modelled as an explicit `Res.crash` outcome, ordinary fallible
results as `Res.ok` / `Res.err`.

External collaborators (out of scope per the specification) are modelled as
follows and documented at each definition:
* the `rust_decimal::Decimal` type is modelled as an exact rational with
  checked operations failing exactly when the exact result's magnitude
  exceeds the maximum representable magnitude `2^96 - 1`;
* IEEE-754 doubles are modelled as exact rationals plus NaN and the two
  infinities; rounding of finite arithmetic is not modelled (every concrete
  float computation appearing in a theorem below is exactly representable,
  where the model agrees with IEEE-754);
* the std string-to-number parsers and number-to-string formatters are
  modelled faithfully on the grammar level (sign, digits, fraction,
  exponent, inf/nan forms, range checks).
-/

/-! ## Basic machine-integer arithmetic -/

/-- Two's-complement range of a signed `w`-bit integer. -/
abbrev inR (w : Nat) (x : Int) : Prop := -(2 ^ (w - 1)) ≤ x ∧ x < 2 ^ (w - 1)

/-- The minimum value of a signed `w`-bit integer. -/
def intMin (w : Nat) : Int := -(2 ^ (w - 1))

/-- Rust `iW::checked_add`: `none` exactly when the exact sum leaves the
`w`-bit range. -/
def checkedAdd (w : Nat) (a b : Int) : Option Int :=
  if inR w (a + b) then some (a + b) else none

/-- Rust `iW::checked_sub`. -/
def checkedSub (w : Nat) (a b : Int) : Option Int :=
  if inR w (a - b) then some (a - b) else none

/-- Rust `iW::checked_mul`. -/
def checkedMul (w : Nat) (a b : Int) : Option Int :=
  if inR w (a * b) then some (a * b) else none

/-- Rust `iW::checked_div`: truncated division; `none` when the divisor is
zero or when the division overflows (`MIN / -1`). -/
def checkedDiv (w : Nat) (a b : Int) : Option Int :=
  if b = 0 ∨ (a = intMin w ∧ b = -1) then none else some (Int.tdiv a b)

/-- Rust `iW::checked_rem`: truncated remainder (sign of the dividend);
`none` when the divisor is zero or when the division overflows
(`MIN % -1`), even though the mathematical remainder `0` would fit. -/
def checkedRem (w : Nat) (a b : Int) : Option Int :=
  if b = 0 ∨ (a = intMin w ∧ b = -1) then none else some (Int.tmod a b)

/-- Three-way comparison on a linear order, as Rust `Ord::cmp`. -/
def cmp3 {α : Type} [LinearOrder α] (a b : α) : Ordering :=
  if a < b then Ordering.lt else if a = b then Ordering.eq else Ordering.gt

/-! ## Exact rationals

The numeric payload of the double and decimal models.  A `Q` is the
unreduced fraction `num / (dm1 + 1)`; the denominator is stored minus one so
that it is positive by construction.  No normalization is performed, and all
observations (equality, order, zero test) go through cross-multiplication,
so values are compared semantically, never structurally.  Every operation is
a plain `Int`/`Nat` computation, so everything here evaluates inside the
kernel. -/

structure Q : Type where
  num : Int
  dm1 : Nat
deriving DecidableEq

/-- The (always positive) denominator. -/
def Q.den (q : Q) : Int := (q.dm1 : Int) + 1

def intToQ (n : Int) : Q := Q.mk n 0

def qZero : Q := Q.mk 0 0

/-- Semantic zero test (the denominator is positive). -/
def qIsZero (q : Q) : Bool := decide (q.num = 0)

/-- Semantic equality, by cross-multiplication. -/
def qEqB (a b : Q) : Bool := decide (a.num * Q.den b = b.num * Q.den a)

/-- Semantic three-way comparison, by cross-multiplication. -/
def qCmp (a b : Q) : Ordering := cmp3 (a.num * Q.den b) (b.num * Q.den a)

def qLtB (a b : Q) : Bool := decide (a.num * Q.den b < b.num * Q.den a)

def qLeB (a b : Q) : Bool := decide (a.num * Q.den b ≤ b.num * Q.den a)

def qAdd (a b : Q) : Q :=
  Q.mk (a.num * Q.den b + b.num * Q.den a) ((a.dm1 + 1) * (b.dm1 + 1) - 1)

def qSub (a b : Q) : Q :=
  Q.mk (a.num * Q.den b - b.num * Q.den a) ((a.dm1 + 1) * (b.dm1 + 1) - 1)

def qMul (a b : Q) : Q := Q.mk (a.num * b.num) ((a.dm1 + 1) * (b.dm1 + 1) - 1)

def qNeg (a : Q) : Q := Q.mk (-a.num) a.dm1

def qAbs (a : Q) : Q := Q.mk |a.num| a.dm1

/-- Exact division; every caller below guards against a semantically zero
divisor first. -/
def qDiv (a b : Q) : Q :=
  if b.num < 0 then Q.mk (-(a.num * Q.den b)) ((a.dm1 + 1) * b.num.natAbs - 1)
  else Q.mk (a.num * Q.den b) ((a.dm1 + 1) * b.num.natAbs - 1)

def qFloor (q : Q) : Int := Int.fdiv q.num (Q.den q)

/-- Truncation toward zero (the float-to-integer rounding Rust `%` uses). -/
def qTrunc (q : Q) : Int := Int.tdiv q.num (Q.den q)

/-- `q * 10 ^ ex` for a signed exponent. -/
def qScale10 (q : Q) (ex : Int) : Q :=
  if 0 ≤ ex then qMul q (Q.mk ((10 : Int) ^ ex.toNat) 0)
  else qMul q (Q.mk 1 (10 ^ (-ex).toNat - 1))

/-! ## The IEEE-754 double model

Modelled from the spec: "The float variant is IEEE-754 double precision."
The payload of a finite double is its exact rational value; NaN and the two
infinities are separate constructors.  Arithmetic on finite values is exact
(rounding is not modelled); comparisons of finite values agree exactly with
IEEE-754 comparison of the represented values, and every comparison or
arithmetic operation involving NaN follows IEEE-754. -/

inductive Fp : Type where
  | finite (q : Q)
  | nan
  | inf
  | negInf
deriving DecidableEq

/-- IEEE-754 `partial_cmp`: `none` exactly when one side is NaN. -/
def f64Cmp : Fp → Fp → Option Ordering
  | Fp.nan, _ => none
  | _, Fp.nan => none
  | Fp.inf, Fp.inf => some Ordering.eq
  | Fp.inf, _ => some Ordering.gt
  | _, Fp.inf => some Ordering.lt
  | Fp.negInf, Fp.negInf => some Ordering.eq
  | Fp.negInf, _ => some Ordering.lt
  | _, Fp.negInf => some Ordering.gt
  | Fp.finite a, Fp.finite b => some (qCmp a b)

def f64Add : Fp → Fp → Fp
  | Fp.nan, _ => Fp.nan
  | _, Fp.nan => Fp.nan
  | Fp.inf, Fp.negInf => Fp.nan
  | Fp.inf, _ => Fp.inf
  | Fp.negInf, Fp.inf => Fp.nan
  | Fp.negInf, _ => Fp.negInf
  | _, Fp.inf => Fp.inf
  | _, Fp.negInf => Fp.negInf
  | Fp.finite a, Fp.finite b => Fp.finite (qAdd a b)

def f64Sub : Fp → Fp → Fp
  | Fp.nan, _ => Fp.nan
  | _, Fp.nan => Fp.nan
  | Fp.inf, Fp.inf => Fp.nan
  | Fp.inf, _ => Fp.inf
  | Fp.negInf, Fp.negInf => Fp.nan
  | Fp.negInf, _ => Fp.negInf
  | _, Fp.inf => Fp.negInf
  | _, Fp.negInf => Fp.inf
  | Fp.finite a, Fp.finite b => Fp.finite (qSub a b)

def f64Mul : Fp → Fp → Fp
  | Fp.nan, _ => Fp.nan
  | _, Fp.nan => Fp.nan
  | Fp.finite a, Fp.finite b => Fp.finite (qMul a b)
  | Fp.finite a, Fp.inf =>
    if qIsZero a then Fp.nan else if qLtB qZero a then Fp.inf else Fp.negInf
  | Fp.finite a, Fp.negInf =>
    if qIsZero a then Fp.nan else if qLtB qZero a then Fp.negInf else Fp.inf
  | Fp.inf, Fp.finite b =>
    if qIsZero b then Fp.nan else if qLtB qZero b then Fp.inf else Fp.negInf
  | Fp.negInf, Fp.finite b =>
    if qIsZero b then Fp.nan else if qLtB qZero b then Fp.negInf else Fp.inf
  | Fp.inf, Fp.inf => Fp.inf
  | Fp.inf, Fp.negInf => Fp.negInf
  | Fp.negInf, Fp.inf => Fp.negInf
  | Fp.negInf, Fp.negInf => Fp.inf

def f64Div : Fp → Fp → Fp
  | Fp.nan, _ => Fp.nan
  | _, Fp.nan => Fp.nan
  | Fp.finite a, Fp.finite b =>
    if qIsZero b then
      (if qIsZero a then Fp.nan else if qLtB qZero a then Fp.inf else Fp.negInf)
    else Fp.finite (qDiv a b)
  | Fp.finite _, Fp.inf => Fp.finite qZero
  | Fp.finite _, Fp.negInf => Fp.finite qZero
  | Fp.inf, Fp.finite b => if qLeB qZero b then Fp.inf else Fp.negInf
  | Fp.negInf, Fp.finite b => if qLeB qZero b then Fp.negInf else Fp.inf
  | _, _ => Fp.nan

/-- IEEE-754 `%` (Rust `f64::rem`, i.e. `fmod`): remainder with the sign of
the dividend. -/
def f64Rem : Fp → Fp → Fp
  | Fp.nan, _ => Fp.nan
  | _, Fp.nan => Fp.nan
  | Fp.finite a, Fp.finite b =>
    if qIsZero b then Fp.nan
    else Fp.finite (qSub a (qMul b (intToQ (qTrunc (qDiv a b)))))
  | Fp.finite a, _ => Fp.finite a
  | _, _ => Fp.nan

def f64Abs : Fp → Fp
  | Fp.finite a => Fp.finite (qAbs a)
  | Fp.nan => Fp.nan
  | Fp.inf => Fp.inf
  | Fp.negInf => Fp.inf

/-- Rust `<` on doubles: true exactly when `partial_cmp` yields `Less`. -/
def f64Lt (a b : Fp) : Bool := f64Cmp a b == some Ordering.lt

/-- `f64::EPSILON` is `2^-52` exactly. -/
def f64Epsilon : Q := Q.mk 1 (2 ^ 52 - 1)

/-- An `iN` value converted with `as f64`.  Every `i16` is exactly
representable, so the conversion is exact there; for `i64` the model is
exact while Rust rounds above `2^53` (no theorem below depends on that
range). -/
def f64OfInt (n : Int) : Fp := Fp.finite (intToQ n)

/-! ## The `rust_decimal::Decimal` model

Modelled from the spec: "The decimal variant is an opaque arbitrary-precision
fixed-point type supplied by an external library; treated as a black box
supporting checked add/sub/mul/div/rem and construction from any integer
width."  A decimal is modelled by its exact rational value; a checked
operation fails exactly when the magnitude of the exact result exceeds the
maximum representable magnitude `2^96 - 1` (`Decimal::MAX`); the rescaling /
rounding that the real library performs inside the representable range is not
modelled.  The unchecked `+` of the library (which panics on overflow, with
the same overflow condition as `checked_add`) is modelled at its use site in
`i16TryAdd` by a `Res.crash` outcome. -/

def decMaxQ : Q := Q.mk (2 ^ 96 - 1) 0

def decChkAdd (a b : Q) : Option Q :=
  if qLeB (qAbs (qAdd a b)) decMaxQ then some (qAdd a b) else none

def decChkSub (a b : Q) : Option Q :=
  if qLeB (qAbs (qSub a b)) decMaxQ then some (qSub a b) else none

def decChkMul (a b : Q) : Option Q :=
  if qLeB (qAbs (qMul a b)) decMaxQ then some (qMul a b) else none

def decChkDiv (a b : Q) : Option Q :=
  if qIsZero b then none
  else if qLeB (qAbs (qDiv a b)) decMaxQ then some (qDiv a b) else none

def decChkRem (a b : Q) : Option Q :=
  if qIsZero b then none
  else some (qSub a (qMul b (intToQ (qTrunc (qDiv a b)))))

/-! ## The `Value` data model and error taxonomy -/

/-- `Value` (`crate::prelude::Value`): the closed scalar variant set.  The
variants the `i16` engine only ever reaches through its catch-all arms are
represented by `Bool`, `Str` and `Interval` (the `Interval` payload is the
opaque scaled quantity). -/
inductive Value : Type where
  | I8 (n : Int)
  | I16 (n : Int)
  | I32 (n : Int)
  | I64 (n : Int)
  | I128 (n : Int)
  | F64 (f : Fp)
  | Decimal (d : Q)
  | Bool (b : Bool)
  | Str (s : String)
  | Interval (n : Int)
  | Null
deriving DecidableEq

/-- `NumericBinaryOperator`. -/
inductive NumericBinaryOperator : Type where
  | add
  | subtract
  | multiply
  | divide
  | modulo
deriving DecidableEq

/-- The error kinds reachable from the embedded operations
(`ValueError::BinaryOperationOverflow`, `ValueError::NonNumericMathOperation`,
`EvaluateError::UnreachableLiteralArithmetic`,
`EvaluateError::UnsupportedLiteralBinaryArithmetic`,
`EvaluateError::LiteralUnaryOperationOnNonNumeric`). -/
inductive Err : Type where
  | binaryOperationOverflow (lhs rhs : Value) (operator : NumericBinaryOperator)
  | nonNumericMathOperation (lhs : Value) (operator : NumericBinaryOperator) (rhs : Value)
  | unreachableLiteralArithmetic
  | unsupportedLiteralBinaryArithmetic (lhs rhs : String)
  | literalUnaryOperationOnNonNumeric
deriving DecidableEq

/-- The outcome of running a fallible Rust computation: a success value, an
explicit `Err` result, or a process panic (`crash`). -/
inductive Res (α : Type) : Type where
  | ok (a : α)
  | err (e : Err)
  | crash
deriving DecidableEq

def Res.isOk {α : Type} : Res α → Bool
  | Res.ok _ => true
  | _ => false

def Res.isErr {α : Type} : Res α → Bool
  | Res.err _ => true
  | _ => false

def Res.map {α β : Type} (f : α → β) : Res α → Res β
  | Res.ok a => Res.ok (f a)
  | Res.err e => Res.err e
  | Res.crash => Res.crash

/-- The `?` operator. -/
def Res.bind {α β : Type} : Res α → (α → Res β) → Res β
  | Res.ok a, f => f a
  | Res.err e, _ => Res.err e
  | Res.crash, _ => Res.crash

/-! ## `impl PartialEq<Value> for i16` and `impl PartialOrd<Value> for i16` -/

/-- `i16.rs` lines 13-28: `(lhs : i16) == (rhs : Value)`.  Integer variants
widen losslessly and compare exactly; `F64` compares
`|lhs as f64 - rhs| < f64::EPSILON`; `Decimal` compares
`Decimal::from(lhs) == rhs` exactly; anything else is unequal. -/
def i16Eq (lhs : Int) (rhs : Value) : Bool :=
  match rhs with
  | Value.I8 b => decide (lhs = b)
  | Value.I16 b => decide (lhs = b)
  | Value.I32 b => decide (lhs = b)
  | Value.I64 b => decide (lhs = b)
  | Value.I128 b => decide (lhs = b)
  | Value.F64 f => f64Lt (f64Abs (f64Sub (f64OfInt lhs) f)) (Fp.finite f64Epsilon)
  | Value.Decimal q => qEqB (intToQ lhs) q
  | _ => false

/-- `i16.rs` lines 30-43: `(lhs : i16).partial_cmp(rhs : Value)`. -/
def i16Cmp (lhs : Int) (rhs : Value) : Option Ordering :=
  match rhs with
  | Value.I8 b => some (cmp3 lhs b)
  | Value.I16 b => some (cmp3 lhs b)
  | Value.I32 b => some (cmp3 lhs b)
  | Value.I64 b => some (cmp3 lhs b)
  | Value.I128 b => some (cmp3 lhs b)
  | Value.F64 f => f64Cmp (f64OfInt lhs) f
  | Value.Decimal q => some (qCmp (intToQ lhs) q)
  | _ => none

/-! ## `impl TryBinaryOperator for i16` -/

/-- `i16.rs` `try_add`.  Note the `Decimal` arm: the source computes
`Decimal::from(lhs) + rhs` with the *unchecked* `+`, which panics on
decimal overflow — modelled by `Res.crash` on the `checked_add` failure
condition.  (Every other decimal arm of this impl uses a checked
operation.) -/
def i16TryAdd (lhs : Int) (rhs : Value) : Res Value :=
  match rhs with
  | Value.I8 b =>
    match checkedAdd 16 lhs b with
    | some r => Res.ok (Value.I16 r)
    | none => Res.err (Err.binaryOperationOverflow (Value.I16 lhs) (Value.I8 b) NumericBinaryOperator.add)
  | Value.I16 b =>
    match checkedAdd 16 lhs b with
    | some r => Res.ok (Value.I16 r)
    | none => Res.err (Err.binaryOperationOverflow (Value.I16 lhs) (Value.I16 b) NumericBinaryOperator.add)
  | Value.I32 b =>
    match checkedAdd 32 lhs b with
    | some r => Res.ok (Value.I32 r)
    | none => Res.err (Err.binaryOperationOverflow (Value.I16 lhs) (Value.I32 b) NumericBinaryOperator.add)
  | Value.I64 b =>
    match checkedAdd 64 lhs b with
    | some r => Res.ok (Value.I64 r)
    | none => Res.err (Err.binaryOperationOverflow (Value.I16 lhs) (Value.I64 b) NumericBinaryOperator.add)
  | Value.I128 b =>
    match checkedAdd 128 lhs b with
    | some r => Res.ok (Value.I128 r)
    | none => Res.err (Err.binaryOperationOverflow (Value.I16 lhs) (Value.I128 b) NumericBinaryOperator.add)
  | Value.F64 f => Res.ok (Value.F64 (f64Add (f64OfInt lhs) f))
  | Value.Decimal q =>
    match decChkAdd (intToQ lhs) q with
    | some d => Res.ok (Value.Decimal d)
    | none => Res.crash
  | Value.Null => Res.ok Value.Null
  | other => Res.err (Err.nonNumericMathOperation (Value.I16 lhs) NumericBinaryOperator.add other)

/-- `i16.rs` `try_subtract`. -/
def i16TrySubtract (lhs : Int) (rhs : Value) : Res Value :=
  match rhs with
  | Value.I8 b =>
    match checkedSub 16 lhs b with
    | some r => Res.ok (Value.I16 r)
    | none => Res.err (Err.binaryOperationOverflow (Value.I16 lhs) (Value.I8 b) NumericBinaryOperator.subtract)
  | Value.I16 b =>
    match checkedSub 16 lhs b with
    | some r => Res.ok (Value.I16 r)
    | none => Res.err (Err.binaryOperationOverflow (Value.I16 lhs) (Value.I16 b) NumericBinaryOperator.subtract)
  | Value.I32 b =>
    match checkedSub 32 lhs b with
    | some r => Res.ok (Value.I32 r)
    | none => Res.err (Err.binaryOperationOverflow (Value.I16 lhs) (Value.I32 b) NumericBinaryOperator.subtract)
  | Value.I64 b =>
    match checkedSub 64 lhs b with
    | some r => Res.ok (Value.I64 r)
    | none => Res.err (Err.binaryOperationOverflow (Value.I16 lhs) (Value.I64 b) NumericBinaryOperator.subtract)
  | Value.I128 b =>
    match checkedSub 128 lhs b with
    | some r => Res.ok (Value.I128 r)
    | none => Res.err (Err.binaryOperationOverflow (Value.I16 lhs) (Value.I128 b) NumericBinaryOperator.subtract)
  | Value.F64 f => Res.ok (Value.F64 (f64Sub (f64OfInt lhs) f))
  | Value.Decimal q =>
    match decChkSub (intToQ lhs) q with
    | some d => Res.ok (Value.Decimal d)
    | none => Res.err (Err.binaryOperationOverflow (Value.I16 lhs) (Value.Decimal q) NumericBinaryOperator.subtract)
  | Value.Null => Res.ok Value.Null
  | other => Res.err (Err.nonNumericMathOperation (Value.I16 lhs) NumericBinaryOperator.subtract other)

/-- `i16.rs` `try_multiply` (the only operation with an `Interval` arm). -/
def i16TryMultiply (lhs : Int) (rhs : Value) : Res Value :=
  match rhs with
  | Value.I8 b =>
    match checkedMul 16 lhs b with
    | some r => Res.ok (Value.I16 r)
    | none => Res.err (Err.binaryOperationOverflow (Value.I16 lhs) (Value.I8 b) NumericBinaryOperator.multiply)
  | Value.I16 b =>
    match checkedMul 16 lhs b with
    | some r => Res.ok (Value.I16 r)
    | none => Res.err (Err.binaryOperationOverflow (Value.I16 lhs) (Value.I16 b) NumericBinaryOperator.multiply)
  | Value.I32 b =>
    match checkedMul 32 lhs b with
    | some r => Res.ok (Value.I32 r)
    | none => Res.err (Err.binaryOperationOverflow (Value.I16 lhs) (Value.I32 b) NumericBinaryOperator.multiply)
  | Value.I64 b =>
    match checkedMul 64 lhs b with
    | some r => Res.ok (Value.I64 r)
    | none => Res.err (Err.binaryOperationOverflow (Value.I16 lhs) (Value.I64 b) NumericBinaryOperator.multiply)
  | Value.I128 b =>
    match checkedMul 128 lhs b with
    | some r => Res.ok (Value.I128 r)
    | none => Res.err (Err.binaryOperationOverflow (Value.I16 lhs) (Value.I128 b) NumericBinaryOperator.multiply)
  | Value.F64 f => Res.ok (Value.F64 (f64Mul (f64OfInt lhs) f))
  | Value.Decimal q =>
    match decChkMul (intToQ lhs) q with
    | some d => Res.ok (Value.Decimal d)
    | none => Res.err (Err.binaryOperationOverflow (Value.I16 lhs) (Value.Decimal q) NumericBinaryOperator.multiply)
  | Value.Interval r => Res.ok (Value.Interval (lhs * r))
  | Value.Null => Res.ok Value.Null
  | other => Res.err (Err.nonNumericMathOperation (Value.I16 lhs) NumericBinaryOperator.multiply other)

/-- `i16.rs` `try_divide`. -/
def i16TryDivide (lhs : Int) (rhs : Value) : Res Value :=
  match rhs with
  | Value.I8 b =>
    match checkedDiv 16 lhs b with
    | some r => Res.ok (Value.I16 r)
    | none => Res.err (Err.binaryOperationOverflow (Value.I16 lhs) (Value.I8 b) NumericBinaryOperator.divide)
  | Value.I16 b =>
    match checkedDiv 16 lhs b with
    | some r => Res.ok (Value.I16 r)
    | none => Res.err (Err.binaryOperationOverflow (Value.I16 lhs) (Value.I16 b) NumericBinaryOperator.divide)
  | Value.I32 b =>
    match checkedDiv 32 lhs b with
    | some r => Res.ok (Value.I32 r)
    | none => Res.err (Err.binaryOperationOverflow (Value.I16 lhs) (Value.I32 b) NumericBinaryOperator.divide)
  | Value.I64 b =>
    match checkedDiv 64 lhs b with
    | some r => Res.ok (Value.I64 r)
    | none => Res.err (Err.binaryOperationOverflow (Value.I16 lhs) (Value.I64 b) NumericBinaryOperator.divide)
  | Value.I128 b =>
    match checkedDiv 128 lhs b with
    | some r => Res.ok (Value.I128 r)
    | none => Res.err (Err.binaryOperationOverflow (Value.I16 lhs) (Value.I128 b) NumericBinaryOperator.divide)
  | Value.F64 f => Res.ok (Value.F64 (f64Div (f64OfInt lhs) f))
  | Value.Decimal q =>
    match decChkDiv (intToQ lhs) q with
    | some d => Res.ok (Value.Decimal d)
    | none => Res.err (Err.binaryOperationOverflow (Value.I16 lhs) (Value.Decimal q) NumericBinaryOperator.divide)
  | Value.Null => Res.ok Value.Null
  | other => Res.err (Err.nonNumericMathOperation (Value.I16 lhs) NumericBinaryOperator.divide other)

/-- `i16.rs` `try_modulo`. -/
def i16TryModulo (lhs : Int) (rhs : Value) : Res Value :=
  match rhs with
  | Value.I8 b =>
    match checkedRem 16 lhs b with
    | some r => Res.ok (Value.I16 r)
    | none => Res.err (Err.binaryOperationOverflow (Value.I16 lhs) (Value.I8 b) NumericBinaryOperator.modulo)
  | Value.I16 b =>
    match checkedRem 16 lhs b with
    | some r => Res.ok (Value.I16 r)
    | none => Res.err (Err.binaryOperationOverflow (Value.I16 lhs) (Value.I16 b) NumericBinaryOperator.modulo)
  | Value.I32 b =>
    match checkedRem 32 lhs b with
    | some r => Res.ok (Value.I32 r)
    | none => Res.err (Err.binaryOperationOverflow (Value.I16 lhs) (Value.I32 b) NumericBinaryOperator.modulo)
  | Value.I64 b =>
    match checkedRem 64 lhs b with
    | some r => Res.ok (Value.I64 r)
    | none => Res.err (Err.binaryOperationOverflow (Value.I16 lhs) (Value.I64 b) NumericBinaryOperator.modulo)
  | Value.I128 b =>
    match checkedRem 128 lhs b with
    | some r => Res.ok (Value.I128 r)
    | none => Res.err (Err.binaryOperationOverflow (Value.I16 lhs) (Value.I128 b) NumericBinaryOperator.modulo)
  | Value.F64 f => Res.ok (Value.F64 (f64Rem (f64OfInt lhs) f))
  | Value.Decimal q =>
    match decChkRem (intToQ lhs) q with
    | some d => Res.ok (Value.Decimal d)
    | none => Res.err (Err.binaryOperationOverflow (Value.I16 lhs) (Value.Decimal q) NumericBinaryOperator.modulo)
  | Value.Null => Res.ok Value.Null
  | other => Res.err (Err.nonNumericMathOperation (Value.I16 lhs) NumericBinaryOperator.modulo other)

/-- Dispatch an operator name to the corresponding `i16` operation. -/
def i16TryOp : NumericBinaryOperator → Int → Value → Res Value
  | NumericBinaryOperator.add => i16TryAdd
  | NumericBinaryOperator.subtract => i16TrySubtract
  | NumericBinaryOperator.multiply => i16TryMultiply
  | NumericBinaryOperator.divide => i16TryDivide
  | NumericBinaryOperator.modulo => i16TryModulo

/-! ## Literals and the std parse/format collaborators

`sqlparser::ast::Value` (aliased `Literal` in `evaluated.rs`) is modelled by
`Lit`; the variants the source matches on are `Number(text, approximate)`,
`SingleQuotedString`, `Boolean` and `Null`.  The std library parsers
(`str::parse::<i64>`, `str::parse::<f64>`) and formatters (`i64`/`f64`
`to_string`) are external collaborators; they are modelled below on the
grammar level: acceptance coincides with Rust's, numeric values are exact
(the rounding a real `f64` parse performs is not modelled, and the `f64`
formatter is exact on terminating decimal expansions — every concrete value
reaching it in the theorems below, such as `2.5`, prints identically in
both). -/

def chMinus : Char := Char.ofNat 45
def chPlus : Char := Char.ofNat 43
def chDot : Char := Char.ofNat 46
def chE : Char := Char.ofNat 101
def chEcap : Char := Char.ofNat 69
def chQuote : Char := Char.ofNat 39
def chQmark : Char := Char.ofNat 63
def chI : Char := Char.ofNat 105
def chN : Char := Char.ofNat 110
def chF : Char := Char.ofNat 102
def chA : Char := Char.ofNat 97
def chT : Char := Char.ofNat 116
def chY : Char := Char.ofNat 121

def isDigit (c : Char) : Bool := decide (48 ≤ c.toNat) && decide (c.toNat ≤ 57)

/-- Split one optional leading sign: `(negative, remaining characters)`. -/
def splitSign : List Char → Bool × List Char
  | [] => (false, [])
  | c :: cs =>
    if c = chMinus then (true, cs)
    else if c = chPlus then (false, cs)
    else (false, c :: cs)

def digitsVal (cs : List Char) : Nat :=
  cs.foldl (fun acc c => acc * 10 + (c.toNat - 48)) 0

/-- A non-empty all-digit run, as a natural number. -/
def digitsToNat (cs : List Char) : Option Nat :=
  if cs.isEmpty then none
  else if cs.all isDigit then some (digitsVal cs) else none

/-- Rust `str::parse::<i64>`: optional sign, one or more digits, nothing
else, with the 64-bit range check. -/
def parseI64 (s : String) : Option Int :=
  match digitsToNat (splitSign s.data).2 with
  | none => none
  | some n =>
    if inR 64 (if (splitSign s.data).1 then -(n : Int) else (n : Int)) then
      some (if (splitSign s.data).1 then -(n : Int) else (n : Int))
    else none

/-- Split the mantissa from an optional exponent part at the first `e`/`E`. -/
def splitAtExp : List Char → List Char × Option (List Char)
  | [] => ([], none)
  | c :: cs =>
    if c == chE || c == chEcap then ([], some cs)
    else ((c :: (splitAtExp cs).1), (splitAtExp cs).2)

/-- `digits [ . digits ]` with at least one digit overall, as an exact
rational. -/
def parseMantissa (cs : List Char) : Option Q :=
  match cs.dropWhile isDigit with
  | [] =>
    if (cs.takeWhile isDigit).isEmpty then none
    else some (intToQ (digitsVal (cs.takeWhile isDigit)))
  | c :: fr =>
    if c = chDot then
      if fr.all isDigit && (!(cs.takeWhile isDigit).isEmpty || !fr.isEmpty) then
        some (qAdd (intToQ (digitsVal (cs.takeWhile isDigit)))
          (Q.mk (digitsVal fr) (10 ^ fr.length - 1)))
      else none
    else none

/-- Exponent part: optional sign, one or more digits. -/
def parseExp (cs : List Char) : Option Int :=
  match digitsToNat (splitSign cs).2 with
  | none => none
  | some n => some (if (splitSign cs).1 then -(n : Int) else (n : Int))

/-- Unsigned body of a float literal: `mantissa [ (e|E) exponent ]`. -/
def parseDecBody (cs : List Char) : Option Q :=
  match parseMantissa (splitAtExp cs).1, (splitAtExp cs).2 with
  | some q, none => some q
  | some q, some ecs =>
    (match parseExp ecs with
     | some ex => some (qScale10 q ex)
     | none => none)
  | none, _ => none

/-- Rust `str::parse::<f64>`: optional sign, then either a decimal body or
one of the case-insensitive special forms `inf`, `infinity`, `nan`. -/
def parseF64 (s : String) : Option Fp :=
  match parseDecBody (splitSign s.data).2 with
  | some q => some (Fp.finite (if (splitSign s.data).1 then qNeg q else q))
  | none =>
    if (splitSign s.data).2.map Char.toLower == [chI, chN, chF]
        || (splitSign s.data).2.map Char.toLower == [chI, chN, chF, chI, chN, chI, chT, chY] then
      some (if (splitSign s.data).1 then Fp.negInf else Fp.inf)
    else if (splitSign s.data).2.map Char.toLower == [chN, chA, chN] then
      some Fp.nan
    else none

/-- Decimal digits of a natural number (fuel-driven so that the kernel can
evaluate it). -/
def natDigitsAux : Nat → Nat → List Char → List Char
  | 0, _, acc => acc
  | fuel + 1, n, acc =>
    if n < 10 then Char.ofNat (48 + n % 10) :: acc
    else natDigitsAux fuel (n / 10) (Char.ofNat (48 + n % 10) :: acc)

def fmtNat (n : Nat) : String := String.mk (natDigitsAux (n + 1) n [])

/-- Rust `i64::to_string`. -/
def fmtInt (n : Int) : String :=
  if n < 0 then "-" ++ fmtNat n.natAbs else fmtNat n.natAbs

/-- Decimal digits of the fractional part `f` (`0 ≤ f < 1`), stopping at the
first exact zero remainder; fuel-driven, with a placeholder on exhaustion
(unreachable for the dyadic values a real double holds). -/
def fracDigits : Nat → Q → List Char
  | 0, _ => [chQmark]
  | fuel + 1, f =>
    if qIsZero f then []
    else
      Char.ofNat (48 + (qFloor (qMul f (intToQ 10))).toNat % 10) ::
        fracDigits fuel
          (qSub (qMul f (intToQ 10)) (intToQ (qFloor (qMul f (intToQ 10)))))

/-- Rust `f64` `Display` (shortest form: no trailing `.0` on integers, no
trailing zeros), exact on terminating decimal expansions. -/
def fmtF64 : Fp → String
  | Fp.nan => "NaN"
  | Fp.inf => "inf"
  | Fp.negInf => "-inf"
  | Fp.finite q =>
    if qIsZero (qSub (qAbs q) (intToQ (qFloor (qAbs q)))) then
      (if qLtB q qZero then "-" else "") ++ fmtNat (qFloor (qAbs q)).toNat
    else
      (if qLtB q qZero then "-" else "") ++ fmtNat (qFloor (qAbs q)).toNat ++ "." ++
        String.mk (fracDigits 1200 (qSub (qAbs q) (intToQ (qFloor (qAbs q)))))

/-- `sqlparser::ast::Value`, the unresolved-literal representation. -/
inductive Lit : Type where
  | number (s : String) (approximate : Bool)
  | singleQuotedString (s : String)
  | boolean (b : Bool)
  | null
deriving DecidableEq

/-- `sqlparser`'s `escape_single_quote_string`: embedded quotes double. -/
def escapeQuotes (s : String) : String :=
  String.mk (s.data.foldr
    (fun c acc => if c = chQuote then chQuote :: chQuote :: acc else c :: acc) [])

def quoteStr (s : String) : String :=
  String.mk [chQuote] ++ escapeQuotes s ++ String.mk [chQuote]

/-- `sqlparser::ast::Value`'s `Display`, used by
`UnsupportedLiteralBinaryArithmetic` to carry the textual operand forms. -/
def litToString : Lit → String
  | Lit.number s _ => s
  | Lit.singleQuotedString s => quoteStr s
  | Lit.boolean b => if b then "true" else "false"
  | Lit.null => "NULL"

/-! ## Literal-level comparison and arithmetic (`evaluated.rs`) -/

/-- The four operators the `binary_op!` macro is instantiated at. -/
inductive EvalBinOp : Type where
  | add
  | subtract
  | multiply
  | divide
deriving DecidableEq

/-- Two's-complement wrap-around into the 64-bit range (release-profile
behaviour of the raw `i64` operators; a debug build would panic instead of
wrapping). -/
def i64Wrap (n : Int) : Int := (n + 2 ^ 63) % 2 ^ 64 - 2 ^ 63

/-- The raw `i64` operator `$op` applied in the literal path of
`binary_op!`: `+`, `-`, `*` wrap; `/` panics (`none`) on a zero divisor or
on `MIN / -1`. -/
def i64RawOp : EvalBinOp → Int → Int → Option Int
  | EvalBinOp.add, a, b => some (i64Wrap (a + b))
  | EvalBinOp.subtract, a, b => some (i64Wrap (a - b))
  | EvalBinOp.multiply, a, b => some (i64Wrap (a * b))
  | EvalBinOp.divide, a, b =>
    if b = 0 ∨ (a = intMin 64 ∧ b = -1) then none else some (Int.tdiv a b)

/-- The raw `f64` operator `$op` in the float fallback path. -/
def f64RawOp : EvalBinOp → Fp → Fp → Fp
  | EvalBinOp.add => f64Add
  | EvalBinOp.subtract => f64Sub
  | EvalBinOp.multiply => f64Mul
  | EvalBinOp.divide => f64Div

/-- `evaluated.rs` lines 125-152, the `literal_binary_op` closure of
`binary_op!`: non-approximate numbers go through the i64-then-f64 parse
fallback; a `Null` beside a non-approximate number (or another `Null`)
yields a null literal; every other pairing is
`UnsupportedLiteralBinaryArithmetic` with the `Display` forms of the two
operands. -/
def litBinOp (op : EvalBinOp) (l r : Lit) : Res Lit :=
  match l, r with
  | Lit.number ls false, Lit.number rs false =>
    (match parseI64 ls, parseI64 rs with
     | some a, some b =>
       (match i64RawOp op a b with
        | some v => Res.ok (Lit.number (fmtInt v) false)
        | none => Res.crash)
     | some a, none =>
       (match parseF64 rs with
        | some rf => Res.ok (Lit.number (fmtF64 (f64RawOp op (f64OfInt a) rf)) false)
        | none => Res.err Err.unreachableLiteralArithmetic)
     | none, some b =>
       (match parseF64 ls with
        | some lf => Res.ok (Lit.number (fmtF64 (f64RawOp op lf (f64OfInt b))) false)
        | none => Res.err Err.unreachableLiteralArithmetic)
     | none, none =>
       (match parseF64 ls, parseF64 rs with
        | some lf, some rf => Res.ok (Lit.number (fmtF64 (f64RawOp op lf rf)) false)
        | _, _ => Res.err Err.unreachableLiteralArithmetic))
  | Lit.null, Lit.number _ false => Res.ok Lit.null
  | Lit.number _ false, Lit.null => Res.ok Lit.null
  | Lit.null, Lit.null => Res.ok Lit.null
  | _, _ => Res.err (Err.unsupportedLiteralBinaryArithmetic (litToString l) (litToString r))

/-- `evaluated.rs` lines 85-107: `literal_partial_cmp`. -/
def literalPartialCmp (l r : Lit) : Option Ordering :=
  match l, r with
  | Lit.number ls false, Lit.number rs false =>
    (match parseI64 ls, parseI64 rs with
     | some a, some b => some (cmp3 a b)
     | none, some b =>
       (match parseF64 ls with
        | some lf => f64Cmp lf (f64OfInt b)
        | none => none)
     | some a, none =>
       (match parseF64 rs with
        | some rf => f64Cmp (f64OfInt a) rf
        | none => none)
     | none, none =>
       (match parseF64 ls, parseF64 rs with
        | some lf, some rf => f64Cmp lf rf
        | _, _ => none))
  | Lit.singleQuotedString ls, Lit.singleQuotedString rs =>
    some (cmp3 ls.data rs.data)
  | _, _ => none

/-! ## The `Evaluated` four-shape union

The `Value`-level operations the `Evaluated` dispatch delegates to
(`PartialEq<Literal> for Value`, `PartialOrd<Value>/<Literal> for Value`,
`Value::try_from(&Literal)` and the `Value`-vs-`Value` arithmetic methods)
live in repository files outside the excerpted core, so they are taken as
parameters (`ValueOps`): every theorem about the dispatch holds for every
instantiation of the missing operations. -/

inductive Evaluated : Type where
  | literalRef (l : Lit)
  | literal (l : Lit)
  | valueRef (v : Value)
  | value (v : Value)

/-- The `Value`-level collaborators of `evaluated.rs` (defined elsewhere in
the repository). -/
structure ValueOps : Type where
  valueEq : Value → Value → Bool
  valueEqLit : Value → Lit → Bool
  valueCmp : Value → Value → Option Ordering
  valueCmpLit : Value → Lit → Option Ordering
  tryFromLit : Lit → Res Value
  valueBinOp : EvalBinOp → Value → Value → Res Value

/-- Structural equality of two literals (`sqlparser`'s derived
`PartialEq`). -/
def litEqB (l r : Lit) : Bool := decide (l = r)

/-- `evaluated.rs` lines 39-60: `impl PartialEq for Evaluated`. -/
def evalEq (ops : ValueOps) : Evaluated → Evaluated → Bool
  | Evaluated.literalRef l, Evaluated.literalRef r => litEqB l r
  | Evaluated.literalRef l, Evaluated.valueRef r => ops.valueEqLit r l
  | Evaluated.literalRef l, Evaluated.value r => ops.valueEqLit r l
  | Evaluated.literalRef l, Evaluated.literal r => litEqB l r
  | Evaluated.valueRef l, Evaluated.literalRef r => ops.valueEqLit l r
  | Evaluated.valueRef l, Evaluated.literal r => ops.valueEqLit l r
  | Evaluated.valueRef l, Evaluated.valueRef r => ops.valueEq l r
  | Evaluated.valueRef l, Evaluated.value r => ops.valueEq l r
  | Evaluated.value l, Evaluated.literalRef r => ops.valueEqLit l r
  | Evaluated.value l, Evaluated.valueRef r => ops.valueEq l r
  | Evaluated.value l, Evaluated.value r => ops.valueEq l r
  | Evaluated.value l, Evaluated.literal r => ops.valueEqLit l r
  | Evaluated.literal l, Evaluated.literal r => litEqB l r
  | Evaluated.literal l, Evaluated.literalRef r => litEqB l r
  | Evaluated.literal l, Evaluated.valueRef r => ops.valueEqLit r l
  | Evaluated.literal l, Evaluated.value r => ops.valueEqLit r l

/-- `evaluated.rs` lines 62-83: `impl PartialOrd for Evaluated` (a
literal-left, value-right pairing materializes on the value side and
reverses the ordering). -/
def evalCmp (ops : ValueOps) : Evaluated → Evaluated → Option Ordering
  | Evaluated.literalRef l, Evaluated.literalRef r => literalPartialCmp l r
  | Evaluated.literalRef l, Evaluated.literal r => literalPartialCmp l r
  | Evaluated.literalRef l, Evaluated.valueRef r => (ops.valueCmpLit r l).map Ordering.swap
  | Evaluated.literalRef l, Evaluated.value r => (ops.valueCmpLit r l).map Ordering.swap
  | Evaluated.literal l, Evaluated.literalRef r => literalPartialCmp l r
  | Evaluated.literal l, Evaluated.valueRef r => (ops.valueCmpLit r l).map Ordering.swap
  | Evaluated.literal l, Evaluated.value r => (ops.valueCmpLit r l).map Ordering.swap
  | Evaluated.literal l, Evaluated.literal r => literalPartialCmp l r
  | Evaluated.valueRef l, Evaluated.literalRef r => ops.valueCmpLit l r
  | Evaluated.valueRef l, Evaluated.valueRef r => ops.valueCmp l r
  | Evaluated.value l, Evaluated.literal r => ops.valueCmpLit l r
  | Evaluated.value l, Evaluated.value r => ops.valueCmp l r
  | Evaluated.valueRef l, Evaluated.literal r => ops.valueCmpLit l r
  | Evaluated.valueRef l, Evaluated.value r => ops.valueCmp l r
  | Evaluated.value l, Evaluated.literalRef r => ops.valueCmpLit l r
  | Evaluated.value l, Evaluated.valueRef r => ops.valueCmp l r

/-- `evaluated.rs` lines 122-178, the body generated by `binary_op!` for
`add`/`subtract`/`multiply`/`divide`: literal-vs-literal runs
`literal_binary_op`; any pairing with a resolved value materializes the
literal side through `Value::try_from` (propagating its failure via `?`) and
runs the `Value`-level operation. -/
def evalBinOp (ops : ValueOps) (op : EvalBinOp) : Evaluated → Evaluated → Res Evaluated
  | Evaluated.literalRef l, Evaluated.literalRef r => (litBinOp op l r).map Evaluated.literal
  | Evaluated.literalRef l, Evaluated.literal r => (litBinOp op l r).map Evaluated.literal
  | Evaluated.literalRef l, Evaluated.valueRef r =>
    (ops.tryFromLit l).bind (fun lv => (ops.valueBinOp op lv r).map Evaluated.value)
  | Evaluated.literalRef l, Evaluated.value r =>
    (ops.tryFromLit l).bind (fun lv => (ops.valueBinOp op lv r).map Evaluated.value)
  | Evaluated.literal l, Evaluated.literalRef r => (litBinOp op l r).map Evaluated.literal
  | Evaluated.literal l, Evaluated.literal r => (litBinOp op l r).map Evaluated.literal
  | Evaluated.literal l, Evaluated.valueRef r =>
    (ops.tryFromLit l).bind (fun lv => (ops.valueBinOp op lv r).map Evaluated.value)
  | Evaluated.literal l, Evaluated.value r =>
    (ops.tryFromLit l).bind (fun lv => (ops.valueBinOp op lv r).map Evaluated.value)
  | Evaluated.valueRef l, Evaluated.literalRef r =>
    (ops.tryFromLit r).bind (fun rv => (ops.valueBinOp op l rv).map Evaluated.value)
  | Evaluated.valueRef l, Evaluated.literal r =>
    (ops.tryFromLit r).bind (fun rv => (ops.valueBinOp op l rv).map Evaluated.value)
  | Evaluated.valueRef l, Evaluated.valueRef r => (ops.valueBinOp op l r).map Evaluated.value
  | Evaluated.valueRef l, Evaluated.value r => (ops.valueBinOp op l r).map Evaluated.value
  | Evaluated.value l, Evaluated.literalRef r =>
    (ops.tryFromLit r).bind (fun rv => (ops.valueBinOp op l rv).map Evaluated.value)
  | Evaluated.value l, Evaluated.literal r =>
    (ops.tryFromLit r).bind (fun rv => (ops.valueBinOp op l rv).map Evaluated.value)
  | Evaluated.value l, Evaluated.valueRef r => (ops.valueBinOp op l r).map Evaluated.value
  | Evaluated.value l, Evaluated.value r => (ops.valueBinOp op l r).map Evaluated.value

/-- An underlying operand (a literal or a resolved value) wrapped in one of
its two admissible `Evaluated` shapes: `true` picks the borrowed shape. -/
def wrapOperand : Bool → Lit ⊕ Value → Evaluated
  | true, Sum.inl l => Evaluated.literalRef l
  | false, Sum.inl l => Evaluated.literal l
  | true, Sum.inr v => Evaluated.valueRef v
  | false, Sum.inr v => Evaluated.value v

/-! ## Spec-side definitions

The following definitions transcribe the specification's words (not the
source) and exist to be compared with the embedding above. -/

/-- The five integer widths a `Value` integer variant can have. -/
inductive IntW : Type where
  | w8
  | w16
  | w32
  | w64
  | w128
deriving DecidableEq

def IntW.bits : IntW → Nat
  | IntW.w8 => 8
  | IntW.w16 => 16
  | IntW.w32 => 32
  | IntW.w64 => 64
  | IntW.w128 => 128

/-- The integer `Value` variant of width `w` holding `n`. -/
def IntW.mkVal : IntW → Int → Value
  | IntW.w8, n => Value.I8 n
  | IntW.w16, n => Value.I16 n
  | IntW.w32, n => Value.I32 n
  | IntW.w64, n => Value.I64 n
  | IntW.w128, n => Value.I128 n

/-- The wider of width 16 (the `i16` lhs) and the rhs width. -/
def wider16 (w : IntW) : IntW := if w.bits ≤ 16 then IntW.w16 else w

/-- The checked operation named by `op`, at width `w`. -/
def checkedOpN : NumericBinaryOperator → Nat → Int → Int → Option Int
  | NumericBinaryOperator.add => checkedAdd
  | NumericBinaryOperator.subtract => checkedSub
  | NumericBinaryOperator.multiply => checkedMul
  | NumericBinaryOperator.divide => checkedDiv
  | NumericBinaryOperator.modulo => checkedRem

/-- Modelled from the spec: "integer ⊕ integer ⇒ result type is the wider of
the two integer widths; the operation is computed as a checked operation in
that wider width; overflow ... produces a `BinaryOperationOverflow` error
carrying the original (untouched) `lhs` and `rhs` values and the
operator."  Instantiated for an `i16` lhs `a` and an integer rhs `b` of
width `w`. -/
def specWidenChecked (op : NumericBinaryOperator) (a : Int) (w : IntW) (b : Int) :
    Res Value :=
  match checkedOpN op (wider16 w).bits a b with
  | some r => Res.ok (IntW.mkVal (wider16 w) r)
  | none => Res.err (Err.binaryOperationOverflow (Value.I16 a) (IntW.mkVal w b) op)

/-- The numeric variants as enumerated by the specification
(I8/I16/I32/I64/I128/F64/Decimal). -/
def isNumericVariant : Value → Bool
  | Value.I8 _ => true
  | Value.I16 _ => true
  | Value.I32 _ => true
  | Value.I64 _ => true
  | Value.I128 _ => true
  | Value.F64 _ => true
  | Value.Decimal _ => true
  | _ => false

theorem cmp3_eq_iff {α : Type} [LinearOrder α] (a b : α) :
    cmp3 a b = Ordering.eq ↔ a = b := by
  unfold cmp3
  by_cases h1 : a < b
  · simp only [if_pos h1]
    constructor
    · intro h; cases h
    · intro h; exact absurd h (ne_of_lt h1)
  · by_cases h2 : a = b
    · simp [h1, h2]
    · simp [h1, h2]


theorem specWidenChecked_add_isErr (a : Int) (w : IntW) (b : Int) :
    (specWidenChecked NumericBinaryOperator.add a w b).isErr = true ↔
      ¬ inR (wider16 w).bits (a + b) := by
  have hck : checkedAdd (wider16 w).bits a b =
      if inR (wider16 w).bits (a + b) then some (a + b) else none := rfl
  by_cases h : inR (wider16 w).bits (a + b)
  · rw [if_pos h] at hck
    have hval : specWidenChecked NumericBinaryOperator.add a w b =
        Res.ok (IntW.mkVal (wider16 w) (a + b)) := by
      unfold specWidenChecked
      simp only [checkedOpN]
      rw [hck]
    rw [hval]
    exact iff_of_false (by simp [Res.isErr]) (not_not_intro h)
  · rw [if_neg h] at hck
    have hval : specWidenChecked NumericBinaryOperator.add a w b =
        Res.err (Err.binaryOperationOverflow (Value.I16 a) (IntW.mkVal w b)
          NumericBinaryOperator.add) := by
      unfold specWidenChecked
      simp only [checkedOpN]
      rw [hck]
    rw [hval]
    exact iff_of_true rfl h

theorem specWidenChecked_sub_isErr (a : Int) (w : IntW) (b : Int) :
    (specWidenChecked NumericBinaryOperator.subtract a w b).isErr = true ↔
      ¬ inR (wider16 w).bits (a - b) := by
  have hck : checkedSub (wider16 w).bits a b =
      if inR (wider16 w).bits (a - b) then some (a - b) else none := rfl
  by_cases h : inR (wider16 w).bits (a - b)
  · rw [if_pos h] at hck
    have hval : specWidenChecked NumericBinaryOperator.subtract a w b =
        Res.ok (IntW.mkVal (wider16 w) (a - b)) := by
      unfold specWidenChecked
      simp only [checkedOpN]
      rw [hck]
    rw [hval]
    exact iff_of_false (by simp [Res.isErr]) (not_not_intro h)
  · rw [if_neg h] at hck
    have hval : specWidenChecked NumericBinaryOperator.subtract a w b =
        Res.err (Err.binaryOperationOverflow (Value.I16 a) (IntW.mkVal w b)
          NumericBinaryOperator.subtract) := by
      unfold specWidenChecked
      simp only [checkedOpN]
      rw [hck]
    rw [hval]
    exact iff_of_true rfl h

theorem specWidenChecked_mul_isErr (a : Int) (w : IntW) (b : Int) :
    (specWidenChecked NumericBinaryOperator.multiply a w b).isErr = true ↔
      ¬ inR (wider16 w).bits (a * b) := by
  have hck : checkedMul (wider16 w).bits a b =
      if inR (wider16 w).bits (a * b) then some (a * b) else none := rfl
  by_cases h : inR (wider16 w).bits (a * b)
  · rw [if_pos h] at hck
    have hval : specWidenChecked NumericBinaryOperator.multiply a w b =
        Res.ok (IntW.mkVal (wider16 w) (a * b)) := by
      unfold specWidenChecked
      simp only [checkedOpN]
      rw [hck]
    rw [hval]
    exact iff_of_false (by simp [Res.isErr]) (not_not_intro h)
  · rw [if_neg h] at hck
    have hval : specWidenChecked NumericBinaryOperator.multiply a w b =
        Res.err (Err.binaryOperationOverflow (Value.I16 a) (IntW.mkVal w b)
          NumericBinaryOperator.multiply) := by
      unfold specWidenChecked
      simp only [checkedOpN]
      rw [hck]
    rw [hval]
    exact iff_of_true rfl h

theorem specWidenChecked_div_isErr (a : Int) (w : IntW) (b : Int) :
    (specWidenChecked NumericBinaryOperator.divide a w b).isErr = true ↔
      (b = 0 ∨ (a = intMin (wider16 w).bits ∧ b = -1)) := by
  by_cases h : b = 0 ∨ (a = intMin (wider16 w).bits ∧ b = -1) <;>
    simp [specWidenChecked, checkedOpN, checkedDiv, h, Res.isErr]

theorem specWidenChecked_mod_isErr (a : Int) (w : IntW) (b : Int) :
    (specWidenChecked NumericBinaryOperator.modulo a w b).isErr = true ↔
      (b = 0 ∨ (a = intMin (wider16 w).bits ∧ b = -1)) := by
  by_cases h : b = 0 ∨ (a = intMin (wider16 w).bits ∧ b = -1) <;>
    simp [specWidenChecked, checkedOpN, checkedRem, h, Res.isErr]

theorem i16TryOp_eq_spec (op : NumericBinaryOperator) (a : Int) (w : IntW) (b : Int) :
    i16TryOp op a (IntW.mkVal w b) = specWidenChecked op a w b := by
  cases op <;> cases w <;> rfl

/-! ## Claim theorems -/

/-- C1 (amended): for an `i16` lhs and an integer rhs of any width, every
arithmetic operation is computed as the checked operation in the wider of the
two widths `W` and returns a result of width `W`; on failure the error
carries the original, unwidened operands and the operator.  `try_add`,
`try_subtract` and `try_multiply` fail exactly when the true mathematical
result does not fit in `W`; `try_divide` and `try_modulo` fail exactly when
the divisor is zero or when `(lhs, rhs) = (min of W, -1)` — for `try_modulo`
this last case fails even though the mathematical remainder `0` fits, which
is what forces the amendment.  The claim's two examples hold as stated. -/
theorem c1_widen_checked_amended :
    (∀ (op : NumericBinaryOperator) (a : Int) (w : IntW) (b : Int),
        inR 16 a → inR w.bits b →
        i16TryOp op a (IntW.mkVal w b) = specWidenChecked op a w b) ∧
    (∀ (a : Int) (w : IntW) (b : Int), inR 16 a → inR w.bits b →
        ((i16TryOp NumericBinaryOperator.add a (IntW.mkVal w b)).isErr = true ↔
            ¬ inR (wider16 w).bits (a + b)) ∧
        ((i16TryOp NumericBinaryOperator.subtract a (IntW.mkVal w b)).isErr = true ↔
            ¬ inR (wider16 w).bits (a - b)) ∧
        ((i16TryOp NumericBinaryOperator.multiply a (IntW.mkVal w b)).isErr = true ↔
            ¬ inR (wider16 w).bits (a * b)) ∧
        ((i16TryOp NumericBinaryOperator.divide a (IntW.mkVal w b)).isErr = true ↔
            (b = 0 ∨ (a = intMin (wider16 w).bits ∧ b = -1))) ∧
        ((i16TryOp NumericBinaryOperator.modulo a (IntW.mkVal w b)).isErr = true ↔
            (b = 0 ∨ (a = intMin (wider16 w).bits ∧ b = -1)))) ∧
    i16TryAdd 32767 (Value.I32 1) = Res.ok (Value.I32 32768) ∧
    i16TryAdd 32767 (Value.I16 1) =
      Res.err (Err.binaryOperationOverflow (Value.I16 32767) (Value.I16 1)
        NumericBinaryOperator.add) := by
  refine ⟨fun op a w b _ _ => i16TryOp_eq_spec op a w b, ?_, by decide, by decide⟩
  intro a w b _ _
  simp only [i16TryOp_eq_spec]
  exact ⟨specWidenChecked_add_isErr a w b, specWidenChecked_sub_isErr a w b,
    specWidenChecked_mul_isErr a w b, specWidenChecked_div_isErr a w b,
    specWidenChecked_mod_isErr a w b⟩

/-- C1, counterexample to the claim as stated: `i16::MIN.try_modulo(&I16(-1))`
fails with `BinaryOperationOverflow`, yet the true mathematical result of the
operation (`-32768 rem -1 = 0`) does fit in the wider width 16 — so "fails
iff the true mathematical result does not fit in the wider width" is false
at this input. -/
theorem c1_modulo_min_counterexample :
    i16TryModulo (-32768) (Value.I16 (-1)) =
      Res.err (Err.binaryOperationOverflow (Value.I16 (-32768)) (Value.I16 (-1))
        NumericBinaryOperator.modulo) ∧
    Int.tmod (-32768) (-1) = 0 ∧
    inR 16 (Int.tmod (-32768) (-1)) := by
  refine ⟨by decide, by decide, by decide⟩

/-- C1, witness: the amended theorem applied at concrete inputs with its
range hypotheses discharged. -/
theorem c1_widen_checked_witness :
    i16TryOp NumericBinaryOperator.add 1 (IntW.mkVal IntW.w8 1) =
      specWidenChecked NumericBinaryOperator.add 1 IntW.w8 1 ∧
    ((i16TryOp NumericBinaryOperator.divide 5 (IntW.mkVal IntW.w16 0)).isErr = true ↔
      ((0 : Int) = 0 ∨ ((5 : Int) = intMin (wider16 IntW.w16).bits ∧ (0 : Int) = -1))) :=
  ⟨c1_widen_checked_amended.1 NumericBinaryOperator.add 1 IntW.w8 1 (by decide) (by decide),
   (c1_widen_checked_amended.2.1 5 IntW.w16 0 (by decide) (by decide)).2.2.2.1⟩

/-- C2 (code bug): the claim says every one of the five operations with a
`Decimal` rhs is a checked decimal operation that returns
`BinaryOperationOverflow` on failure and never panics, but the `Decimal` arm
of `try_add` uses the library's unchecked `+`: at `lhs = 1`,
`rhs = Decimal::MAX` the checked-addition condition fails and the code
panics (`Res.crash`) instead of returning an error, while the sibling
`try_subtract` at an equally overflowing input returns exactly the error the
claim describes. -/
theorem c2_decimal_add_panics :
    i16TryAdd 1 (Value.Decimal decMaxQ) = Res.crash ∧
    decChkAdd (intToQ 1) decMaxQ = none ∧
    i16TrySubtract 1 (Value.Decimal (qNeg decMaxQ)) =
      Res.err (Err.binaryOperationOverflow (Value.I16 1) (Value.Decimal (qNeg decMaxQ))
        NumericBinaryOperator.subtract) := by
  refine ⟨by decide, by decide, by decide⟩

/-- C3 (code bug): dividing the literal `"1"` by the literal `"0"` goes
through the integer path of `binary_op!`, which applies the raw `i64` `/` to
the parsed values; `1_i64 / 0_i64` panics, so the operation aborts the
process instead of producing an explicit result value — for every
instantiation of the `Value`-level collaborators. -/
theorem c3_literal_divide_by_zero_panics (ops : ValueOps) :
    evalBinOp ops EvalBinOp.divide (Evaluated.literal (Lit.number ("1") false))
      (Evaluated.literal (Lit.number ("0") false)) = Res.crash := rfl

/-- C6: `Null` is absorbing — every one of the five arithmetic operations of
the `i16` engine returns `Ok(Null)` on a `Null` rhs, for every lhs. -/
theorem c6_null_absorbing (lhs : Int) :
    i16TryAdd lhs Value.Null = Res.ok Value.Null ∧
    i16TrySubtract lhs Value.Null = Res.ok Value.Null ∧
    i16TryMultiply lhs Value.Null = Res.ok Value.Null ∧
    i16TryDivide lhs Value.Null = Res.ok Value.Null ∧
    i16TryModulo lhs Value.Null = Res.ok Value.Null :=
  ⟨rfl, rfl, rfl, rfl, rfl⟩

/-- C7: for every lhs, `try_divide` and `try_modulo` with an integer zero of
any width fail with `BinaryOperationOverflow` carrying the original lhs, the
original zero in its original width, and the operator; `try_divide` with
`F64(0.0)` succeeds with a float result instead. -/
theorem c7_zero_divisor (lhs : Int) :
    i16TryDivide lhs (Value.I8 0) =
      Res.err (Err.binaryOperationOverflow (Value.I16 lhs) (Value.I8 0)
        NumericBinaryOperator.divide) ∧
    i16TryDivide lhs (Value.I16 0) =
      Res.err (Err.binaryOperationOverflow (Value.I16 lhs) (Value.I16 0)
        NumericBinaryOperator.divide) ∧
    i16TryDivide lhs (Value.I32 0) =
      Res.err (Err.binaryOperationOverflow (Value.I16 lhs) (Value.I32 0)
        NumericBinaryOperator.divide) ∧
    i16TryDivide lhs (Value.I64 0) =
      Res.err (Err.binaryOperationOverflow (Value.I16 lhs) (Value.I64 0)
        NumericBinaryOperator.divide) ∧
    i16TryDivide lhs (Value.I128 0) =
      Res.err (Err.binaryOperationOverflow (Value.I16 lhs) (Value.I128 0)
        NumericBinaryOperator.divide) ∧
    i16TryModulo lhs (Value.I8 0) =
      Res.err (Err.binaryOperationOverflow (Value.I16 lhs) (Value.I8 0)
        NumericBinaryOperator.modulo) ∧
    i16TryModulo lhs (Value.I16 0) =
      Res.err (Err.binaryOperationOverflow (Value.I16 lhs) (Value.I16 0)
        NumericBinaryOperator.modulo) ∧
    i16TryModulo lhs (Value.I32 0) =
      Res.err (Err.binaryOperationOverflow (Value.I16 lhs) (Value.I32 0)
        NumericBinaryOperator.modulo) ∧
    i16TryModulo lhs (Value.I64 0) =
      Res.err (Err.binaryOperationOverflow (Value.I16 lhs) (Value.I64 0)
        NumericBinaryOperator.modulo) ∧
    i16TryModulo lhs (Value.I128 0) =
      Res.err (Err.binaryOperationOverflow (Value.I16 lhs) (Value.I128 0)
        NumericBinaryOperator.modulo) ∧
    ∃ f, i16TryDivide lhs (Value.F64 (Fp.finite qZero)) = Res.ok (Value.F64 f) := by
  refine ⟨rfl, rfl, rfl, rfl, rfl, rfl, rfl, rfl, rfl, rfl, ⟨_, rfl⟩⟩

/-- C10: `Evaluated` results are shape-insensitive — for every pair of
underlying operands (each a literal or a resolved value) and every
instantiation of the `Value`-level collaborators, equality, partial ordering
and each of the four binary arithmetic operations give the same outcome
whichever of the borrowed/owned shapes wraps each operand. -/
theorem c10_shape_insensitive (ops : ValueOps) (u1 u2 : Lit ⊕ Value)
    (b1 b2 d1 d2 : Bool) :
    evalEq ops (wrapOperand b1 u1) (wrapOperand b2 u2) =
      evalEq ops (wrapOperand d1 u1) (wrapOperand d2 u2) ∧
    evalCmp ops (wrapOperand b1 u1) (wrapOperand b2 u2) =
      evalCmp ops (wrapOperand d1 u1) (wrapOperand d2 u2) ∧
    ∀ op : EvalBinOp,
      evalBinOp ops op (wrapOperand b1 u1) (wrapOperand b2 u2) =
        evalBinOp ops op (wrapOperand d1 u1) (wrapOperand d2 u2) := by
  rcases u1 with l1 | v1 <;> rcases u2 with l2 | v2 <;>
    cases b1 <;> cases b2 <;> cases d1 <;> cases d2 <;>
      exact ⟨rfl, rfl, fun _ => rfl⟩

theorem cmp3_eq_lt_iff {α : Type} [LinearOrder α] (a b : α) :
    cmp3 a b = Ordering.lt ↔ a < b := by
  unfold cmp3
  by_cases h1 : a < b
  · simp [h1]
  · by_cases h2 : a = b
    · simp [h1, h2]
    · simp [h1, h2]

theorem digitsToNat_some (cs : List Char) (n : Nat) (h : digitsToNat cs = some n) :
    cs.isEmpty = false ∧ cs.all isDigit = true := by
  unfold digitsToNat at h
  by_cases h1 : cs.isEmpty = true
  · simp [h1] at h
  · by_cases h2 : cs.all isDigit = true
    · exact ⟨by simpa using h1, h2⟩
    · simp [h1, h2] at h

theorem all_digits_takeWhile (cs : List Char) (h : cs.all isDigit = true) :
    cs.takeWhile isDigit = cs := by
  induction cs with
  | nil => rfl
  | cons c cs ih =>
    simp only [List.all_cons, Bool.and_eq_true] at h
    simp [List.takeWhile_cons, h.1, ih h.2]

theorem all_digits_dropWhile (cs : List Char) (h : cs.all isDigit = true) :
    cs.dropWhile isDigit = [] := by
  induction cs with
  | nil => rfl
  | cons c cs ih =>
    simp only [List.all_cons, Bool.and_eq_true] at h
    simp [List.dropWhile_cons, h.1, ih h.2]

theorem splitAtExp_digits (cs : List Char) (h : cs.all isDigit = true) :
    splitAtExp cs = (cs, none) := by
  induction cs with
  | nil => rfl
  | cons c cs ih =>
    simp only [List.all_cons, Bool.and_eq_true] at h
    have hE : (c == chE) = false := by
      apply beq_eq_false_iff_ne.mpr
      intro hc
      subst hc
      exact absurd h.1 (by decide)
    have hEc : (c == chEcap) = false := by
      apply beq_eq_false_iff_ne.mpr
      intro hc
      subst hc
      exact absurd h.1 (by decide)
    simp [splitAtExp, hE, hEc, ih h.2]

theorem parseMantissa_digits (cs : List Char) (h : cs.all isDigit = true)
    (hne : cs.isEmpty = false) :
    parseMantissa cs = some (intToQ (digitsVal cs)) := by
  unfold parseMantissa
  rw [all_digits_dropWhile cs h, all_digits_takeWhile cs h]
  simp [hne]

theorem parseDecBody_digits (cs : List Char) (h : cs.all isDigit = true)
    (hne : cs.isEmpty = false) :
    parseDecBody cs = some (intToQ (digitsVal cs)) := by
  unfold parseDecBody
  rw [splitAtExp_digits cs h]
  simp [parseMantissa_digits cs h hne]

/-- The acceptance set of the float parser contains that of the integer
parser: any string the `i64` parse accepts is sign plus digits, which the
float grammar also accepts. -/
theorem parseF64_isSome_of_parseI64 (s : String) (a : Int) (h : parseI64 s = some a) :
    ∃ v, parseF64 s = some v := by
  unfold parseI64 at h
  cases hd : digitsToNat (splitSign s.data).2 with
  | none => rw [hd] at h; simp at h
  | some n =>
    obtain ⟨hne, hall⟩ := digitsToNat_some _ _ hd
    have hbody := parseDecBody_digits (splitSign s.data).2 hall hne
    refine ⟨Fp.finite (if (splitSign s.data).1 then
        qNeg (intToQ (digitsVal (splitSign s.data).2))
      else intToQ (digitsVal (splitSign s.data).2)), ?_⟩
    unfold parseF64
    rw [hbody]

theorem parseI64_none_of_parseF64_none (s : String) (h : parseF64 s = none) :
    parseI64 s = none := by
  cases hp : parseI64 s with
  | none => rfl
  | some a =>
    obtain ⟨v, hv⟩ := parseF64_isSome_of_parseI64 s a hp
    rw [hv] at h
    cases h

theorem i64Wrap_id (x : Int) (h : inR 64 x) : i64Wrap x = x := by
  obtain ⟨h1, h2⟩ := h
  have e1 : (2 : Int) ^ (64 - 1) = 9223372036854775808 := by norm_num
  have e2 : (2 : Int) ^ 63 = 9223372036854775808 := by norm_num
  have e3 : (2 : Int) ^ 64 = 18446744073709551616 := by norm_num
  rw [e1] at h1 h2
  unfold i64Wrap
  rw [e2, e3]
  omega

/-- C4 (amended): ordering is consistent with equality for every rhs that is
not `F64`: across the integer widths, `Decimal`, and the non-numeric
variants, `partial_cmp = Some(Equal)` holds iff `==` holds.  For an `F64`
rhs only the forward direction survives: `Some(Equal)` still implies `==`
(a zero difference is below epsilon), but the epsilon-based equality is
strictly coarser than the exact ordering, which is what forces the
amendment. -/
theorem c4_eq_cmp_amended :
    (∀ (lhs : Int) (rhs : Value), (∀ f, rhs ≠ Value.F64 f) →
        (i16Cmp lhs rhs = some Ordering.eq ↔ i16Eq lhs rhs = true)) ∧
    (∀ (lhs : Int) (f : Fp),
        i16Cmp lhs (Value.F64 f) = some Ordering.eq → i16Eq lhs (Value.F64 f) = true) := by
  constructor
  · intro lhs rhs hF
    cases rhs with
    | I8 b => simp [i16Cmp, i16Eq, cmp3_eq_iff]
    | I16 b => simp [i16Cmp, i16Eq, cmp3_eq_iff]
    | I32 b => simp [i16Cmp, i16Eq, cmp3_eq_iff]
    | I64 b => simp [i16Cmp, i16Eq, cmp3_eq_iff]
    | I128 b => simp [i16Cmp, i16Eq, cmp3_eq_iff]
    | F64 f => exact absurd rfl (hF f)
    | Decimal q => simp [i16Cmp, i16Eq, qCmp, qEqB, cmp3_eq_iff]
    | Bool b => simp [i16Cmp, i16Eq]
    | Str s => simp [i16Cmp, i16Eq]
    | Interval n => simp [i16Cmp, i16Eq]
    | Null => simp [i16Cmp, i16Eq]
  · intro lhs f h
    cases f with
    | nan => simp [i16Cmp, f64Cmp, f64OfInt] at h
    | inf => simp [i16Cmp, f64Cmp, f64OfInt] at h
    | negInf => simp [i16Cmp, f64Cmp, f64OfInt] at h
    | finite q =>
      have h2 : qCmp (intToQ lhs) q = Ordering.eq := by
        simpa [i16Cmp, f64Cmp, f64OfInt] using h
      have h3 : (intToQ lhs).num * Q.den q = q.num * Q.den (intToQ lhs) :=
        (cmp3_eq_iff _ _).mp h2
      have h4 : (qSub (intToQ lhs) q).num = 0 := by
        simp only [intToQ, Q.den, Nat.cast_zero, zero_add, mul_one] at h3
        simp [qSub, intToQ, Q.den, h3]
      have h7 : qCmp (qAbs (qSub (intToQ lhs) q)) f64Epsilon = Ordering.lt := by
        apply (cmp3_eq_lt_iff _ _).mpr
        rw [show (qAbs (qSub (intToQ lhs) q)).num = 0 by simp [qAbs, h4]]
        simp [f64Epsilon, Q.den, qAbs]
      simp [i16Eq, f64OfInt, f64Sub, f64Abs, f64Lt, f64Cmp, h7]
      decide

/-- C4, counterexample to the claim as stated: at `lhs = 0` and
`rhs = F64(2^-53)` (half of `f64::EPSILON`, exactly representable, so the
model agrees with IEEE-754 here) the epsilon-based equality accepts the pair
while `partial_cmp` orders it strictly — `Some(Equal) ⇔ ==` fails. -/
theorem c4_epsilon_counterexample :
    i16Eq 0 (Value.F64 (Fp.finite (Q.mk 1 (2 ^ 53 - 1)))) = true ∧
    i16Cmp 0 (Value.F64 (Fp.finite (Q.mk 1 (2 ^ 53 - 1)))) = some Ordering.lt ∧
    i16Cmp 0 (Value.F64 (Fp.finite (Q.mk 1 (2 ^ 53 - 1)))) ≠ some Ordering.eq := by
  refine ⟨by decide, by decide, by decide⟩

/-- C4, witness: the amended theorem applied at concrete inputs with its
hypotheses discharged. -/
theorem c4_eq_cmp_witness :
    (i16Cmp 1 (Value.I16 1) = some Ordering.eq ↔ i16Eq 1 (Value.I16 1) = true) ∧
    i16Eq 2 (Value.F64 (Fp.finite (Q.mk 2 0))) = true :=
  ⟨c4_eq_cmp_amended.1 1 (Value.I16 1) (fun f h => Value.noConfusion h),
   c4_eq_cmp_amended.2 2 (Fp.finite (Q.mk 2 0)) (by decide)⟩

/-- C5 (amended): `partial_cmp` returns `None` exactly when the rhs is not a
numeric variant *or* the rhs is `F64(NaN)` — every finite or infinite `F64`,
every integer width and `Decimal` give `Some` ordering, but NaN does not,
which is what forces the amendment. -/
theorem c5_cmp_none_amended (lhs : Int) (rhs : Value) :
    i16Cmp lhs rhs = none ↔
      (isNumericVariant rhs = false ∨ rhs = Value.F64 Fp.nan) := by
  cases rhs with
  | I8 b => simp [i16Cmp, isNumericVariant]
  | I16 b => simp [i16Cmp, isNumericVariant]
  | I32 b => simp [i16Cmp, isNumericVariant]
  | I64 b => simp [i16Cmp, isNumericVariant]
  | I128 b => simp [i16Cmp, isNumericVariant]
  | F64 f => cases f <;> simp [i16Cmp, isNumericVariant, f64Cmp, f64OfInt]
  | Decimal q => simp [i16Cmp, isNumericVariant]
  | Bool b => simp [i16Cmp, isNumericVariant]
  | Str s => simp [i16Cmp, isNumericVariant]
  | Interval n => simp [i16Cmp, isNumericVariant]
  | Null => simp [i16Cmp, isNumericVariant]

/-- C5, counterexample to the claim as stated: `F64(NaN)` is a numeric
variant, yet `partial_cmp` returns `None` on it. -/
theorem c5_nan_counterexample :
    i16Cmp 0 (Value.F64 Fp.nan) = none ∧
    isNumericVariant (Value.F64 Fp.nan) = true :=
  ⟨rfl, rfl⟩

/-- C8, counterexample to the claim as stated: the literals `"1"` and `"0"`
both parse as 64-bit integers, yet the divide operation does not
re-serialize any i64 result as a numeric literal — applying the raw i64 `/`
to the parsed values panics on the zero divisor. -/
theorem c8_divide_zero_counterexample :
    parseI64 ("1") = some 1 ∧
    parseI64 ("0") = some 0 ∧
    litBinOp EvalBinOp.divide (Lit.number ("1") false) (Lit.number ("0") false) =
      Res.crash := by
  refine ⟨by decide, by decide, by decide⟩

/-- C8 (amended): literal-vs-literal arithmetic on two non-approximate
numeric literals parses both sides as `i64` first; if both parse, it
applies the raw i64 operation and re-serializes the 64-bit result —
`add`/`subtract`/`multiply` always yield the (wrapping) i64 result, the
exact result whenever it fits in 64 bits (`"1" + "1"` is `"2"`), while
`divide` yields the truncated quotient except that it panics, producing no
literal, on a zero divisor or on `(i64::MIN, -1)`.  If either side fails
the integer parse — left, right, or both — the operation is redone in
64-bit floats (`"1.5" + "1"` is `"2.5"`); if the float parse fails too, the
operation fails with `UnreachableLiteralArithmetic` and literal ordering
returns `None` under the same condition. -/
theorem c8_literal_fallback :
    (∀ (ls rs : String) (a b : Int),
        parseI64 ls = some a → parseI64 rs = some b →
        litBinOp EvalBinOp.add (Lit.number ls false) (Lit.number rs false) =
            Res.ok (Lit.number (fmtInt (i64Wrap (a + b))) false) ∧
        litBinOp EvalBinOp.subtract (Lit.number ls false) (Lit.number rs false) =
            Res.ok (Lit.number (fmtInt (i64Wrap (a - b))) false) ∧
        litBinOp EvalBinOp.multiply (Lit.number ls false) (Lit.number rs false) =
            Res.ok (Lit.number (fmtInt (i64Wrap (a * b))) false) ∧
        (¬(b = 0 ∨ (a = intMin 64 ∧ b = -1)) →
          litBinOp EvalBinOp.divide (Lit.number ls false) (Lit.number rs false) =
            Res.ok (Lit.number (fmtInt (Int.tdiv a b)) false)) ∧
        ((b = 0 ∨ (a = intMin 64 ∧ b = -1)) →
          litBinOp EvalBinOp.divide (Lit.number ls false) (Lit.number rs false) =
            Res.crash)) ∧
    (∀ (ls rs : String) (a b : Int),
        parseI64 ls = some a → parseI64 rs = some b →
        (inR 64 (a + b) →
          litBinOp EvalBinOp.add (Lit.number ls false) (Lit.number rs false) =
            Res.ok (Lit.number (fmtInt (a + b)) false)) ∧
        (inR 64 (a - b) →
          litBinOp EvalBinOp.subtract (Lit.number ls false) (Lit.number rs false) =
            Res.ok (Lit.number (fmtInt (a - b)) false)) ∧
        (inR 64 (a * b) →
          litBinOp EvalBinOp.multiply (Lit.number ls false) (Lit.number rs false) =
            Res.ok (Lit.number (fmtInt (a * b)) false))) ∧
    (∀ (op : EvalBinOp) (ls rs : String) (a : Int) (rf : Fp),
        parseI64 ls = some a → parseI64 rs = none → parseF64 rs = some rf →
        litBinOp op (Lit.number ls false) (Lit.number rs false) =
          Res.ok (Lit.number (fmtF64 (f64RawOp op (f64OfInt a) rf)) false)) ∧
    (∀ (op : EvalBinOp) (ls rs : String) (lf : Fp) (b : Int),
        parseI64 ls = none → parseF64 ls = some lf → parseI64 rs = some b →
        litBinOp op (Lit.number ls false) (Lit.number rs false) =
          Res.ok (Lit.number (fmtF64 (f64RawOp op lf (f64OfInt b))) false)) ∧
    (∀ (op : EvalBinOp) (ls rs : String) (lf rf : Fp),
        parseI64 ls = none → parseI64 rs = none →
        parseF64 ls = some lf → parseF64 rs = some rf →
        litBinOp op (Lit.number ls false) (Lit.number rs false) =
          Res.ok (Lit.number (fmtF64 (f64RawOp op lf rf)) false)) ∧
    (∀ (op : EvalBinOp) (ls rs : String),
        parseF64 ls = none ∨ parseF64 rs = none →
        litBinOp op (Lit.number ls false) (Lit.number rs false) =
          Res.err Err.unreachableLiteralArithmetic) ∧
    (∀ ls rs : String,
        parseF64 ls = none ∨ parseF64 rs = none →
        literalPartialCmp (Lit.number ls false) (Lit.number rs false) = none) ∧
    litBinOp EvalBinOp.add (Lit.number ("1") false) (Lit.number ("1") false) =
      Res.ok (Lit.number ("2") false) ∧
    litBinOp EvalBinOp.add (Lit.number ("1.5") false) (Lit.number ("1") false) =
      Res.ok (Lit.number ("2.5") false) := by
  refine ⟨?_, ?_, ?_, ?_, ?_, ?_, ?_, by decide, by decide⟩
  · intro ls rs a b ha hb
    refine ⟨?_, ?_, ?_, ?_, ?_⟩
    · simp [litBinOp, ha, hb, i64RawOp]
    · simp [litBinOp, ha, hb, i64RawOp]
    · simp [litBinOp, ha, hb, i64RawOp]
    · intro hnc
      simp [litBinOp, ha, hb, i64RawOp, hnc]
    · intro hc
      simp [litBinOp, ha, hb, i64RawOp, hc]
  · intro ls rs a b ha hb
    refine ⟨?_, ?_, ?_⟩
    · intro hfit
      simp [litBinOp, ha, hb, i64RawOp, i64Wrap_id _ hfit]
    · intro hfit
      simp [litBinOp, ha, hb, i64RawOp, i64Wrap_id _ hfit]
    · intro hfit
      simp [litBinOp, ha, hb, i64RawOp, i64Wrap_id _ hfit]
  · intro op ls rs a rf ha hb hf
    simp [litBinOp, ha, hb, hf]
  · intro op ls rs lf b ha hf hb
    simp [litBinOp, ha, hb, hf]
  · intro op ls rs lf rf ha hb hfl hfr
    simp [litBinOp, ha, hb, hfl, hfr]
  · intro op ls rs h
    rcases h with h | h
    · have hLi : parseI64 ls = none := parseI64_none_of_parseF64_none ls h
      cases hRi : parseI64 rs with
      | some b => simp [litBinOp, hLi, hRi, h]
      | none =>
        cases hRf : parseF64 rs with
        | some rf => simp [litBinOp, hLi, hRi, h, hRf]
        | none => simp [litBinOp, hLi, hRi, h, hRf]
    · have hRi : parseI64 rs = none := parseI64_none_of_parseF64_none rs h
      cases hLi : parseI64 ls with
      | some a => simp [litBinOp, hLi, hRi, h]
      | none =>
        cases hLf : parseF64 ls with
        | some lf => simp [litBinOp, hLi, hRi, h, hLf]
        | none => simp [litBinOp, hLi, hRi, h, hLf]
  · intro ls rs h
    rcases h with h | h
    · have hLi : parseI64 ls = none := parseI64_none_of_parseF64_none ls h
      cases hRi : parseI64 rs with
      | some b => simp [literalPartialCmp, hLi, hRi, h]
      | none =>
        cases hRf : parseF64 rs with
        | some rf => simp [literalPartialCmp, hLi, hRi, h, hRf]
        | none => simp [literalPartialCmp, hLi, hRi, h, hRf]
    · have hRi : parseI64 rs = none := parseI64_none_of_parseF64_none rs h
      cases hLi : parseI64 ls with
      | some a => simp [literalPartialCmp, hLi, hRi, h]
      | none =>
        cases hLf : parseF64 ls with
        | some lf => simp [literalPartialCmp, hLi, hRi, h, hLf]
        | none => simp [literalPartialCmp, hLi, hRi, h, hLf]

/-- C8, witness: the integer-path, in-range, float-fallback, unreachable
and ordering conjuncts applied at concrete inputs with their hypotheses
discharged. -/
theorem c8_literal_fallback_witness :
    litBinOp EvalBinOp.add (Lit.number ("4") false) (Lit.number ("5") false) =
      Res.ok (Lit.number (fmtInt (i64Wrap (4 + 5))) false) ∧
    litBinOp EvalBinOp.divide (Lit.number ("7") false) (Lit.number ("2") false) =
      Res.ok (Lit.number (fmtInt (Int.tdiv 7 2)) false) ∧
    litBinOp EvalBinOp.add (Lit.number ("4") false) (Lit.number ("5") false) =
      Res.ok (Lit.number (fmtInt (4 + 5)) false) ∧
    litBinOp EvalBinOp.add (Lit.number ("2") false) (Lit.number ("1.5") false) =
      Res.ok (Lit.number
        (fmtF64 (f64RawOp EvalBinOp.add (f64OfInt 2) (Fp.finite (Q.mk 15 9)))) false) ∧
    litBinOp EvalBinOp.add (Lit.number ("1.5") false) (Lit.number ("2") false) =
      Res.ok (Lit.number
        (fmtF64 (f64RawOp EvalBinOp.add (Fp.finite (Q.mk 15 9)) (f64OfInt 2))) false) ∧
    litBinOp EvalBinOp.multiply (Lit.number ("x") false) (Lit.number ("2") false) =
      Res.err Err.unreachableLiteralArithmetic ∧
    literalPartialCmp (Lit.number ("x") false) (Lit.number ("2") false) = none :=
  ⟨(c8_literal_fallback.1 ("4") ("5") 4 5 (by decide) (by decide)).1,
   (c8_literal_fallback.1 ("7") ("2") 7 2 (by decide) (by decide)).2.2.2.1 (by decide),
   (c8_literal_fallback.2.1 ("4") ("5") 4 5 (by decide) (by decide)).1 (by decide),
   c8_literal_fallback.2.2.1 EvalBinOp.add ("2") ("1.5") 2 (Fp.finite (Q.mk 15 9))
     (by decide) (by decide) (by decide),
   c8_literal_fallback.2.2.2.1 EvalBinOp.add ("1.5") ("2") (Fp.finite (Q.mk 15 9)) 2
     (by decide) (by decide) (by decide),
   c8_literal_fallback.2.2.2.2.2.1 EvalBinOp.multiply ("x") ("2") (Or.inl (by decide)),
   c8_literal_fallback.2.2.2.2.2.2.1 ("x") ("2") (Or.inl (by decide))⟩
